import Mathlib

/-!
Verification of the core pipeline of `src/xpath_generator_agent.py`
(repository rdavuluri/xpath_generator) against its design description.

The program has three parts with a designed contract:
  * prompt composition: a fixed system prompt (`system_prompt`, built from
    the constant `XPATH_GENERATION_PROMPT`) and a user message assembled
    from a required `html_snippet` plus five optional fields, each appended
    as a labeled line when the Python string is truthy (`user_message`);
  * the generation client: `XPathGeneratorAgent.__init__` wraps the OpenAI
    client construction in try/except (`st.error` + `st.stop` on failure,
    modelled by `InitResult.halted`), and `generate_xpaths` wraps the chat
    completion call in try/except, returning the response text on success
    and the string `"Error generating XPaths: " ++ description` on failure;
  * response extraction: `re.findall` with the pattern
    triple-backtick, `[^\x5cn]*`, newline, then the capture group of `//`
    followed by one or more non-backtick characters; the Streamlit layer
    keeps the first five captures and strips each one.

External effects (the OpenAI client constructor and the network call) are
modelled as explicit function parameters returning `Except String _`; the
regex scan is embedded as a character-list matcher (`matchAt`, `findAll`)
implementing the leftmost, non-overlapping semantics of `re.findall` for
this particular pattern. `findAllAux` carries a fuel argument equal to the
length of the remaining text; every scan step consumes at least one
character, so this fuel is never exhausted before the scan finishes.
-/

set_option maxRecDepth 8000

/-- The constant `XPATH_GENERATION_PROMPT` of the source (lines 6-66),
verbatim. -/
def XPATH_GENERATION_PROMPT : String := "
You are an expert XPath Generator for Selenium automation and web scraping. Generate the top 5 XPath expressions to locate the target element within the provided HTML context, prioritizing accuracy, robustness, performance, and cross-browser compatibility (Chrome, Firefox, Edge). Follow these guidelines meticulously:

**Input Processing and Contextual Understanding:**
1. **HTML Snippet Analysis**:
   - Thoroughly parse the provided HTML snippet to understand the DOM structure, including parent-child relationships, sibling relationships, and attribute values.
   - Identify potential iframe or shadow DOM elements and adjust XPath construction accordingly.
   - If shadow DOM is present, provide methods for traversal using Selenium's `execute_script` or `shadowRoot`.
2. **Target Element Description**:
   - Interpret the target element's description (e.g., tag, attributes, text content, states like visible or enabled).
   - Default to the element specified in the description or HTML (e.g., a `div` with `data-test='target-element'` if not specified).
3. **Page Context Awareness**:
   - Use provided page context to ensure XPaths are not overly specific to the snippet.
   - Analyze surrounding elements to identify stable locators (e.g., `id`, `data-test`, `role`).
4. **Attribute Reliability**:
   - Prefer static attributes (e.g., `id`, `name`, `data-test`, `aria-*`) over dynamic ones (e.g., auto-generated `class`).
   - Use dynamic attributes only when explicitly marked as reliable in the 'Dynamic Attributes Flag'.
5. **Element State Handling**:
   - Incorporate state-aware predicates (e.g., `[@aria-expanded='true']`, `[@disabled='false']`) if specified in 'Element State'.
6. **User Ranking Preferences**:
   - Adhere to ranking preferences (e.g., prioritize `id`, avoid `contains()`) if provided.

**XPath Construction and Output Format:**
1. **XPath Expression Generation**:
   - Construct 5 distinct XPath expressions using diverse axes (e.g., `/`, `//`, `ancestor::`, `descendant::`).
   - Minimize index-based selectors (`[n]`) due to fragility.
   - Use text-based selectors (`text()`, `contains(text(), '...')`) or `normalize-space()` only when attributes are unreliable.
   - For iframes, prepend the iframe's XPath (e.g., `//iframe[@id='frame']`).
   - For shadow DOM, provide Selenium code to access the element.
2. **Output Format for Each XPath**:
   - **XPath**: `[The complete XPath expression]`
   - **Advantage**: `[Key strength, e.g., robustness, performance]`
   - **Disadvantage**: `[Potential weakness, e.g., fragility, performance overhead]`
   - **Explanation**: `[Detailed explanation of syntax, axes, predicates, and logic]`
   - **Selenium (Python)**: `[Python code snippet with comments and try-catch]`
   - **Selenium (Java)**: `[Java code snippet with comments and try-catch]`
   - **Edge Case Handling**: `[Scenarios like dynamic loading, missing attributes, localization, and mitigations]`
   - **Architectural Notes**: `[Broader considerations, e.g., pipeline integration, reusability]`
3. **Ranking**:
   - Rank the 5 XPaths by prioritizing High stability, Excellent performance, and maintainability.

**XPath Construction Best Practices:**
- **Robustness**: Ensure resilience to minor DOM changes (e.g., added classes).
- **Performance**: Use efficient axes:
  - **Excellent**: O(1) complexity, direct axes (e.g., `/[@id='app']`).
  - **Good**: O(log n), relative paths with minimal `//`.
  - **Fair**: O(n), limited `//` with unique attributes.
  - **Poor**: O(n^2), text-based or complex predicates.
- **Maintainability**: Balance specificity and generality to avoid brittle or overly broad XPaths.
- **Clarity**: Write clear explanations for team collaboration.
- **Cross-Browser Compatibility**: Ensure XPaths work in Chrome, Firefox, and Edge, noting quirks (e.g., Firefox’s shadow DOM limitations).
- **Dynamic Attributes**: Use parent stability or semantic attributes if dynamic attributes are specified.
- **Localization**: Avoid `text()` for text that may change due to language settings.
- **Validation**: Recommend testing XPaths with `document.evaluate` or Selenium’s `findElements`.

**Testing Guidance**:
- Provide a markdown table comparing the 5 XPaths (columns: XPath, Stability, Performance, Use Case).
- Suggest testing in browser DevTools (`$x()`) and Selenium to verify uniqueness and robustness.

By adhering to these guidelines, generate XPath expressions that are accurate, robust, efficient, and suitable for production-grade Selenium automation.
"

/-- The system prompt built in `XPathGeneratorAgent.__init__` (an f-string
wrapping `XPATH_GENERATION_PROMPT`). -/
def system_prompt : String :=
  "
        You are an expert XPath Generator for Selenium automation and web scraping.
        Always format XPath expressions with proper syntax highlighting using markdown code blocks.
        When given HTML, analyze it thoroughly to identify optimal XPath patterns.
        Use markdown tables to compare different XPath strategies.
        Always include testing guidance with your XPath recommendations.
        " ++ XPATH_GENERATION_PROMPT ++ "
        "

/-- The parameters of `generate_xpaths`: the required `html_snippet` and the
five optional keyword parameters, which default to `None` in the source. -/
structure RequestInput where
  html_snippet : String
  element_description : Option String := none
  page_context : Option String := none
  dynamic_attributes : Option String := none
  element_state : Option String := none
  ranking_preferences : Option String := none

/-- One step `if field: user_message += f"\n[{label}] = {field}"` of the
source: the line is appended when the Python value is truthy, that is,
not `None` and not the empty string. No trimming is performed. -/
def addOptionalField (msg label : String) (v : Option String) : String :=
  match v with
  | none => msg
  | some s => if s = "" then msg else msg ++ ("\n[" ++ label ++ "] = " ++ s)

/-- The user message assembled by `generate_xpaths` (source lines 96-109):
the HTML snippet line first, then the five optional fields in fixed order. -/
def user_message (r : RequestInput) : String :=
  let m0 := "Please generate XPath expressions for the following:\n\n[HTML Snippet] = "
      ++ r.html_snippet
  let m1 := addOptionalField m0 "Element Description" r.element_description
  let m2 := addOptionalField m1 "Page Context" r.page_context
  let m3 := addOptionalField m2 "Dynamic Attributes Flag" r.dynamic_attributes
  let m4 := addOptionalField m3 "Element State" r.element_state
  addOptionalField m4 "Ranking Preferences" r.ranking_preferences

/-- The contribution of one optional field to the user message, in isolation:
empty when the field is absent or empty, the labeled line otherwise. Used to
state what `user_message` appends per field. -/
def optLine (label : String) (v : Option String) : String :=
  match v with
  | none => ""
  | some s => if s = "" then "" else "\n[" ++ label ++ "] = " ++ s

/-- The constructed OpenAI client handle (`openai.OpenAI(api_key=...)`). -/
structure Client where
  api_key : String

/-- One chat message, a role paired with content. -/
structure ChatMessage where
  role : String
  content : String

/-- The agent state set up by `XPathGeneratorAgent.__init__`: the client
handle and the instance's system prompt. -/
structure XPathGeneratorAgent where
  client : Client
  system_prompt : String

/-- Outcome of `XPathGeneratorAgent.__init__`: on a construction failure the
except-branch shows `st.error(f"Failed to initialize OpenAI client: {e}")`
and calls `st.stop()`, which halts the script run - no agent and no
generation result are produced on that path. -/
inductive InitResult where
  | halted (displayed_error : String)
  | ready (agent : XPathGeneratorAgent)

/-- `XPathGeneratorAgent.__init__` (source lines 70-85). `construct` stands
for the external `openai.OpenAI` constructor, which may raise; a raised
exception is modelled as `Except.error` carrying `str(e)`. -/
def initAgent (construct : String → Except String Client)
    (api_key : String) : InitResult :=
  match construct api_key with
  | Except.error e => InitResult.halted ("Failed to initialize OpenAI client: " ++ e)
  | Except.ok c => InitResult.ready { client := c, system_prompt := system_prompt }

/-- `generate_xpaths` (source lines 87-123). `call` stands for
`self.client.chat.completions.create(...)` followed by
`response.choices[0].message.content`; a raised exception is modelled as
`Except.error` carrying `str(e)`. The try/except of the source returns the
response text on success and `f"Error generating XPaths: {e}"` on failure:
both outcomes travel on the same `String` channel. -/
def generate_xpaths (call : Client → List ChatMessage → Except String String)
    (a : XPathGeneratorAgent) (r : RequestInput) : String :=
  match call a.client
      [{ role := "system", content := a.system_prompt },
       { role := "user", content := user_message r }] with
  | Except.ok text => text
  | Except.error e => "Error generating XPaths: " ++ e

/-- The messages composed for one request: the fixed system prompt and the
user message derived from the input (source lines 114-117). -/
def composeMessages (r : RequestInput) : List ChatMessage :=
  [{ role := "system", content := system_prompt },
   { role := "user", content := user_message r }]

/-- The in-scope composition run by the submit handler (source lines
186-197): construct the agent, then call `generate_xpaths`. `none` means
the script run was halted during construction and no generation-result
string ever reached the caller. -/
def runPipeline (construct : String → Except String Client)
    (call : Client → List ChatMessage → Except String String)
    (api_key : String) (r : RequestInput) : Option String :=
  match initAgent construct api_key with
  | InitResult.halted _ => none
  | InitResult.ready a => some (generate_xpaths call a r)

/-- The backtick character, written by code point to keep it out of the
pattern-matching syntax. -/
def btick : Char := Char.ofNat 96

/-- The regex fragment `[^\x5cn]*\x5cn`: `[^\x5cn]*` cannot cross a newline,
so the whole fragment deterministically consumes the text up to and
including the first newline, and fails when there is none. -/
def dropThroughNewline : List Char → Option (List Char)
  | [] => none
  | c :: t => if c = '\n' then some t else dropThroughNewline t

/-- One anchored attempt of the pattern "three backticks, `[^\x5cn]*`,
newline, capture of `//` followed by `[^\x60]+` (greedy)" at the head of
`cs`. Returns the capture and the remainder of the text after the match
(Python resumes scanning at the end of the match, which is the end of the
capture group). -/
def matchAt (cs : List Char) : Option (List Char × List Char) :=
  match cs with
  | c1 :: c2 :: c3 :: r =>
    if c1 = btick ∧ c2 = btick ∧ c3 = btick then
      match dropThroughNewline r with
      | none => none
      | some r2 =>
        match r2 with
        | s1 :: s2 :: r3 =>
          if s1 = '/' ∧ s2 = '/' then
            match r3.takeWhile (fun c => c != btick) with
            | [] => none
            | b :: bs =>
              some ('/' :: '/' :: b :: bs, r3.dropWhile (fun c => c != btick))
          else none
        | _ => none
    else none
  | _ => none

/-- The scan loop of `re.findall`: try a match at the current position; on
success emit the capture and resume after the match, otherwise advance one
character. The fuel starts at the text length; every step consumes at least
one character, so the fuel never runs out before the text does. -/
def findAllAux : Nat → List Char → List (List Char)
  | 0, _ => []
  | _ + 1, [] => []
  | fuel + 1, c :: t =>
    match matchAt (c :: t) with
    | some (cap, rest) => cap :: findAllAux fuel rest
    | none => findAllAux fuel t

/-- `re.findall(r'...pattern...', response)` for the source's xpath pattern:
all captures, leftmost first, non-overlapping. -/
def findAll (cs : List Char) : List (List Char) :=
  findAllAux cs.length cs

/-- Python's `str.strip()`: leading and trailing whitespace removed. -/
def pyStrip (s : String) : String :=
  String.mk (((s.data.dropWhile Char.isWhitespace).reverse.dropWhile
    Char.isWhitespace).reverse)

/-- The extraction performed on the response text (source lines 202-209):
`re.findall`, then the first five captures (`xpaths[:5]`), each stripped. -/
def extract (response : String) : List String :=
  ((findAll response.data).take 5).map (fun cap => pyStrip (String.mk cap))

/-- A response holding two identical qualifying fenced blocks. -/
def repeatedFenceExample : String := "```xpath\n//a\n```\n```xpath\n//a\n```"

/-- A response holding seven qualifying fenced blocks. -/
def sevenFenceExample : String :=
  "```xpath\n//e1\n```\n```xpath\n//e2\n```\n```xpath\n//e3\n```\n```xpath\n//e4\n```\n```xpath\n//e5\n```\n```xpath\n//e6\n```\n```xpath\n//e7\n```\n"

/-- Appending nothing leaves a string unchanged. -/
theorem str_append_empty (s : String) : s ++ "" = s :=
  String.append_empty s

/-- `addOptionalField` appends exactly the field's `optLine` contribution. -/
theorem addOptionalField_eq (msg label : String) (v : Option String) :
    addOptionalField msg label v = msg ++ optLine label v := by
  cases v with
  | none => simp [addOptionalField, optLine]
  | some s =>
    by_cases h : s = "" <;> simp [addOptionalField, optLine, h]

/-- A labeled line is never the empty string: it starts with a newline and
an opening bracket. -/
theorem optLine_chunk_ne_empty (label s : String) :
    "\n[" ++ label ++ "] = " ++ s ≠ "" := by
  intro hc
  have hl := congrArg String.length hc
  simp only [String.length_append] at hl
  have h2 : ("\n[" : String).length = 2 := rfl
  have h0 : ("" : String).length = 0 := rfl
  omega

/-- The fragment `[^\x5cn]*` then a newline consumes exactly through the
first newline of the text. -/
theorem dropThroughNewline_append (pre post : List Char) (h : '\n' ∉ pre) :
    dropThroughNewline (pre ++ '\n' :: post) = some post := by
  induction pre with
  | nil => simp [dropThroughNewline]
  | cons c t ih =>
    have hc : ¬(c = '\n') := fun hh => h (by simp [hh])
    have ht : '\n' ∉ t := fun hh => h (List.mem_cons_of_mem _ hh)
    simp [dropThroughNewline, hc, ih ht]

/-- C6: the extractor applied to the exact input consisting of one fenced
block with header `xpath` and content `//div[@id='x']` returns exactly that
expression, as a singleton list. -/
theorem extract_singleton_fenced_block :
    extract "```xpath\n//div[@id='x']\n```" = ["//div[@id='x']"] := by decide

/-- C3 counterexample: on a response with two identical qualifying fenced
blocks the extracted list is not duplicate-free, so the extractor does not
deduplicate. -/
theorem extract_nodup_refuted :
    decide ((extract repeatedFenceExample).Nodup) = false := by decide

/-- C3 amended: the extractor yields the captures in order of appearance
with no deduplication: two identical fenced blocks produce the same
expression twice, both in `re.findall`'s raw captures and in the final
stripped list. -/
theorem extract_keeps_duplicates :
    extract repeatedFenceExample = ["//a", "//a"]
    ∧ findAll repeatedFenceExample.data = ["//a\n".data, "//a\n".data] := by
  exact ⟨by decide, by decide⟩

/-- C7: the extractor is a total function; when the scan finds no
qualifying fenced region the result is the empty list (and conversely), an
ordinary value rather than a failure. -/
theorem extract_empty_iff_no_match (s : String) :
    extract s = [] ↔ findAll s.data = [] := by
  cases hf : findAll s.data with
  | nil => simp [extract, hf]
  | cons a t => simp [extract, hf]

/-- C4: on a response with exactly seven qualifying fenced blocks the
extractor returns exactly five expressions - the first five captures in
scan order, each stripped of leading and trailing whitespace - and on any
response whatsoever the extracted list never exceeds five entries. -/
theorem extract_capped_at_five (s : String)
    (h : (findAll s.data).length = 7) :
    (extract s).length = 5
    ∧ extract s = ((findAll s.data).take 5).map (fun cap => pyStrip (String.mk cap))
    ∧ ∀ t : String, (extract t).length ≤ 5 := by
  refine ⟨?_, rfl, ?_⟩
  · simp [extract, h]
  · intro t
    simp [extract]

/-- C4 witness: `sevenFenceExample` holds seven qualifying fenced blocks,
and the theorem applies to it. -/
theorem extract_capped_at_five_witness :
    (findAll sevenFenceExample.data).length = 7
    ∧ ((extract sevenFenceExample).length = 5
      ∧ extract sevenFenceExample
          = ((findAll sevenFenceExample.data).take 5).map
              (fun cap => pyStrip (String.mk cap))
      ∧ ∀ t : String, (extract t).length ≤ 5) :=
  ⟨by decide, extract_capped_at_five sevenFenceExample (by decide)⟩

/-- C9: a fenced block qualifies only when the two slashes stand at the very
start of the line that follows the fence's header line: whatever stands
before the newline (the regex's `[^\x5cn]*` header), if the next line does
not begin with `//` the anchored match at that fence fails, so a block whose
first content line is blank or prose contributes no capture for that fence. -/
theorem fence_requires_immediate_slashes (pre post : List Char)
    (hpre : '\n' ∉ pre) (hpost : post.take 2 ≠ ['/', '/']) :
    matchAt (btick :: btick :: btick :: (pre ++ '\n' :: post)) = none := by
  cases post with
  | nil => simp [matchAt, dropThroughNewline_append pre _ hpre]
  | cons a t =>
    cases t with
    | nil => simp [matchAt, dropThroughNewline_append pre _ hpre]
    | cons b t2 =>
      have hab : ¬(a = '/' ∧ b = '/') := by
        rintro ⟨h1, h2⟩
        exact hpost (by simp [h1, h2, List.take])
      simp [matchAt, dropThroughNewline_append pre _ hpre, hab]

/-- C9 witness: a fence whose first content line is prose (the `//` only on
a later line) yields no match at that fence. -/
theorem fence_requires_immediate_slashes_witness :
    matchAt (btick :: btick :: btick :: ("xpath".data ++ '\n' :: "prose\n//a\n".data))
      = none :=
  fence_requires_immediate_slashes "xpath".data "prose\n//a\n".data
    (by decide) (by decide)

/-- C2 counterexample: a whitespace-only optional field is truthy in Python,
so its labeled line is appended to the user message (note the label line
ending in two spaces), although the field strips to the empty string. The
claim's trimming-based omission does not hold. -/
theorem whitespace_only_field_included :
    user_message { html_snippet := "<p/>", element_description := some " " }
      = "Please generate XPath expressions for the following:\n\n[HTML Snippet] = <p/>\n[Element Description] =  "
    ∧ pyStrip " " = "" := by
  exact ⟨by decide, by decide⟩

/-- C2 amended: the user message is the HTML-snippet line followed by one
`optLine` contribution per optional field in fixed order, and a field's
contribution is non-empty exactly when the field is present and non-empty -
with no trimming, so whitespace-only fields are included. -/
theorem user_message_optional_field_lines (r : RequestInput) :
    user_message r
      = "Please generate XPath expressions for the following:\n\n[HTML Snippet] = "
          ++ r.html_snippet
        ++ optLine "Element Description" r.element_description
        ++ optLine "Page Context" r.page_context
        ++ optLine "Dynamic Attributes Flag" r.dynamic_attributes
        ++ optLine "Element State" r.element_state
        ++ optLine "Ranking Preferences" r.ranking_preferences
    ∧ ∀ label v, optLine label v ≠ "" ↔ ∃ s, v = some s ∧ s ≠ "" := by
  constructor
  · simp only [user_message, addOptionalField_eq]
  · intro label v
    cases v with
    | none => simp [optLine]
    | some s =>
      by_cases h : s = "" <;>
        simp [optLine, h, optLine_chunk_ne_empty label s]

/-- C5: with all six fields populated the user message consists of the six
labeled lines in the fixed order HTML Snippet, Element Description, Page
Context, Dynamic Attributes Flag, Element State, Ranking Preferences, the
HTML-snippet line first (contributed exactly once, by the fixed header);
with only `html_snippet` populated the message is the HTML-snippet line
alone, with no optional-field labels. -/
theorem user_message_six_fields (h d p dy es rp : String)
    (hd : d ≠ "") (hp : p ≠ "") (hdy : dy ≠ "") (hes : es ≠ "") (hrp : rp ≠ "") :
    user_message ⟨h, some d, some p, some dy, some es, some rp⟩
      = "Please generate XPath expressions for the following:\n\n[HTML Snippet] = "
          ++ h
        ++ ("\n[Element Description] = " ++ d)
        ++ ("\n[Page Context] = " ++ p)
        ++ ("\n[Dynamic Attributes Flag] = " ++ dy)
        ++ ("\n[Element State] = " ++ es)
        ++ ("\n[Ranking Preferences] = " ++ rp)
    ∧ user_message { html_snippet := h }
      = "Please generate XPath expressions for the following:\n\n[HTML Snippet] = "
          ++ h := by
  constructor
  · simp [user_message, addOptionalField, hd, hp, hdy, hes, hrp]
  · rfl

/-- C5 witness: the theorem applied to concrete non-empty field values. -/
theorem user_message_six_fields_witness :
    user_message ⟨"<a/>", some "d", some "p", some "y", some "s", some "r"⟩
      = "Please generate XPath expressions for the following:\n\n[HTML Snippet] = "
          ++ "<a/>"
        ++ ("\n[Element Description] = " ++ "d")
        ++ ("\n[Page Context] = " ++ "p")
        ++ ("\n[Dynamic Attributes Flag] = " ++ "y")
        ++ ("\n[Element State] = " ++ "s")
        ++ ("\n[Ranking Preferences] = " ++ "r")
    ∧ user_message { html_snippet := "<a/>" }
      = "Please generate XPath expressions for the following:\n\n[HTML Snippet] = "
          ++ "<a/>" :=
  user_message_six_fields "<a/>" "d" "p" "y" "s" "r"
    (by decide) (by decide) (by decide) (by decide) (by decide)

/-- C8: composing the messages for equal request inputs yields identical
message pairs. The composition is a function of the `RequestInput` alone -
the source lines it embeds read no clock, randomness or mutable state - so
two invocations on the same input are byte-identical. -/
theorem compose_messages_deterministic (r₁ r₂ : RequestInput) (h : r₁ = r₂) :
    composeMessages r₁ = composeMessages r₂ := by rw [h]

/-- C8 witness: two compositions of the same concrete input coincide. -/
theorem compose_messages_deterministic_witness :
    composeMessages ⟨"<div id='app'/>", some "target", none, none, none, none⟩
      = composeMessages ⟨"<div id='app'/>", some "target", none, none, none, none⟩ :=
  compose_messages_deterministic _ _ rfl

/-- C1 counterexample: when client construction fails, the pipeline
produces no generation-result payload at all - `st.error` is shown and
`st.stop()` halts the script run (`InitResult.halted`), so the claim that
every construction failure is converted into a failure payload fails. -/
theorem construction_failure_returns_no_payload :
    runPipeline (fun _ => Except.error "Invalid API key format")
      (fun _ _ => Except.ok "response text") "bad-key"
      { html_snippet := "<div/>" } = none
    ∧ initAgent (fun _ => Except.error "Invalid API key format") "bad-key"
      = InitResult.halted
          "Failed to initialize OpenAI client: Invalid API key format" := by
  exact ⟨rfl, rfl⟩

/-- C1 amended: no exception escapes either boundary, but the two failure
modes differ. A construction failure is caught, an error message built from
the exception text is displayed and the run halts with no payload; a
failure of the generation call itself is caught and converted into the
returned string `"Error generating XPaths: " ++ description`, on the same
channel as a success. -/
theorem generation_client_fail_soft
    (construct : String → Except String Client)
    (call : Client → List ChatMessage → Except String String)
    (api_key : String) (r : RequestInput) :
    (∀ e, construct api_key = Except.error e →
      initAgent construct api_key
          = InitResult.halted ("Failed to initialize OpenAI client: " ++ e)
        ∧ runPipeline construct call api_key r = none)
    ∧ (∀ c e, construct api_key = Except.ok c →
        call c (composeMessages r) = Except.error e →
          runPipeline construct call api_key r
            = some ("Error generating XPaths: " ++ e))
    ∧ (∀ c text, construct api_key = Except.ok c →
        call c (composeMessages r) = Except.ok text →
          runPipeline construct call api_key r = some text) := by
  refine ⟨fun e he => ?_, fun c e hc hcall => ?_, fun c text hc hcall => ?_⟩
  · exact ⟨by simp [initAgent, he], by simp [runPipeline, initAgent, he]⟩
  · simp [runPipeline, initAgent, hc, generate_xpaths, composeMessages] at hcall ⊢
    simp [hcall]
  · simp [runPipeline, initAgent, hc, generate_xpaths, composeMessages] at hcall ⊢
    simp [hcall]

/-- C10: whenever the generation call fails, the value handed back to the
caller is the plain string formed by the fixed prefix
`"Error generating XPaths: "` followed by the exception text - returned on
the very `String` channel that carries a successful response, so the two
outcomes are distinguishable only by the string's content. -/
theorem generation_error_prefixed_string
    (call : Client → List ChatMessage → Except String String)
    (a : XPathGeneratorAgent) (r : RequestInput) (e : String)
    (hcall : call a.client
        [{ role := "system", content := a.system_prompt },
         { role := "user", content := user_message r }] = Except.error e) :
    generate_xpaths call a r = "Error generating XPaths: " ++ e := by
  simp [generate_xpaths, hcall]

/-- C10 witness: a concrete failing call yields the prefixed error string. -/
theorem generation_error_prefixed_string_witness :
    generate_xpaths (fun _ _ => Except.error "connection refused")
        { client := { api_key := "k" }, system_prompt := system_prompt }
        { html_snippet := "<div/>" }
      = "Error generating XPaths: " ++ "connection refused" :=
  generation_error_prefixed_string _ _ _ _ rfl
